import Mathlib

/-!
Shallow embedding of the wallet/payment subsystem and the chat cache of the
chat-backend repository, together with proofs settling the frozen claims.

Source files embedded:
- `app/services/balance_service.py` (ledger: `credit_balance`, `debit_balance`)
- `app/services/payment_service.py` (webhook signature check, duplicate-event
  check, webhook event handlers, payment verification)
- `app/api/wallet.py` (webhook endpoint, `_process_wallet_webhook`,
  `verify_and_credit_payment`, `add_money`)
- `app/models/balance.py` (`AddBalanceRequest.validate_amount`)
- `app/core/cache.py` (`_compress_data`, `_decompress_data`,
  `_get_conversation_key`, `_generate_key`)

Monetary amounts (Python floats holding decimal currency values) are modelled
as rationals. Database tables are modelled as lists of rows; the SQLAlchemy
session is modelled by explicit state passing. External collaborators that are
not repository code (the Razorpay gateway, the HMAC-SHA256 digest, SHA-256,
zlib, UTF-8 codecs) are parameters of the embedding, so every repository-level
control-flow decision is still taken by translated code.
-/

namespace ChatBackend

/-- Outcome of a Python call: a normal return value or a raised exception,
identified by the exception class name. -/
inductive PyOutcome (α : Type) where
  | ret (val : α)
  | raised (excName : String)
deriving Repr, DecidableEq

/-! ## Ledger data model (`app/models/balance.py`) -/

/-- Row of the `user_balances` table (`UserBalance`). Timestamps are omitted:
no claim mentions them. -/
structure UserBalance where
  user_id : String
  balance : ℚ
deriving Repr, DecidableEq

/-- Row of the `balance_transactions` table (`BalanceTransaction`). -/
structure BalanceTransaction where
  id : String
  user_id : String
  transaction_type : String
  amount : ℚ
  description : String
  reference_id : Option String
  reference_type : String
deriving Repr, DecidableEq

/-- The ledger store: the two tables owned by `BalanceService`, plus a counter
standing in for the uuid generator that produces transaction ids. -/
structure LedgerState where
  balances : List UserBalance
  transactions : List BalanceTransaction
  nextTx : Nat
deriving Repr, DecidableEq

def emptyLedger : LedgerState := { balances := [], transactions := [], nextTx := 0 }

/-- `balance` of a user's row, with absence meaning zero (the semantics of
`get_user_balance`, which lazily creates a zero row). -/
def storedBalance (st : LedgerState) (user : String) : ℚ :=
  match st.balances.find? (fun b => b.user_id == user) with
  | some b => b.balance
  | none => 0

/-! ## `BalanceService.credit_balance` (balance_service.py lines 93-145)

The Python code UPSERTs the balance row (insert `balance = amount` on a fresh
user, `balance += amount` on conflict), appends one `BalanceTransaction` row of
type `"credit"`, and returns `True`. There is no check on the sign of
`amount`. -/

def creditBalance (st : LedgerState) (user : String) (amount : ℚ)
    (description : String) (referenceId : Option String) (referenceType : String) :
    Bool × LedgerState :=
  let txId := "tx_" ++ toString st.nextTx
  let balances :=
    if st.balances.any (fun b => b.user_id == user) then
      st.balances.map (fun b =>
        if b.user_id == user then { b with balance := b.balance + amount } else b)
    else
      st.balances ++ [{ user_id := user, balance := amount }]
  let tx : BalanceTransaction :=
    { id := txId, user_id := user, transaction_type := "credit", amount := amount,
      description := description, reference_id := referenceId,
      reference_type := referenceType }
  (true, { balances := balances, transactions := st.transactions ++ [tx],
           nextTx := st.nextTx + 1 })

/-! ## `BalanceService.debit_balance` (balance_service.py lines 147-197)

The Python code reads the user's row; if there is no row or
`balance < amount` it returns `False` (it does not raise), otherwise it
decrements the balance, appends one `"debit"` transaction row and returns
`True`. -/

def debitBalance (st : LedgerState) (user : String) (amount : ℚ)
    (description : String) (referenceId : Option String) (referenceType : String) :
    PyOutcome Bool × LedgerState :=
  match st.balances.find? (fun b => b.user_id == user) with
  | none => (.ret false, st)
  | some b =>
    if b.balance < amount then (.ret false, st)
    else
      let txId := "tx_" ++ toString st.nextTx
      let balances := st.balances.map (fun r =>
        if r.user_id == user then { r with balance := r.balance - amount } else r)
      let tx : BalanceTransaction :=
        { id := txId, user_id := user, transaction_type := "debit", amount := amount,
          description := description, reference_id := referenceId,
          reference_type := referenceType }
      (.ret true, { balances := balances, transactions := st.transactions ++ [tx],
                    nextTx := st.nextTx + 1 })

/-! ## Ledger operation sequences (for the balance/transaction-log invariant)

A `LedgerOp` is one call to `credit_balance` or `debit_balance` for a fixed
user; `applyOps` replays a sequence of such calls against the store. -/

inductive LedgerOp where
  | credit (amount : ℚ) (description : String) (refId : Option String) (refType : String)
  | debit (amount : ℚ) (description : String) (refId : Option String) (refType : String)
deriving Repr, DecidableEq

def opAmount : LedgerOp → ℚ
  | .credit a _ _ _ => a
  | .debit a _ _ _ => a

def applyOp (st : LedgerState) (u : String) : LedgerOp → LedgerState
  | .credit a d r t => (creditBalance st u a d r t).2
  | .debit a d r t => (debitBalance st u a d r t).2

def applyOps (st : LedgerState) (u : String) : List LedgerOp → LedgerState
  | [] => st
  | op :: ops => applyOps (applyOp st u op) u ops

/-- Whether the operation reports success when applied in state `st`
(`credit_balance` always returns `True`; `debit_balance` returns `True` iff the
row exists with sufficient balance). -/
def opOk (st : LedgerState) (u : String) : LedgerOp → Bool
  | .credit _ _ _ _ => true
  | .debit a d r t =>
    match (debitBalance st u a d r t).1 with
    | .ret ok => ok
    | .raised _ => false

def allSucceed (st : LedgerState) (u : String) : List LedgerOp → Bool
  | [] => true
  | op :: ops => opOk st u op && allSucceed (applyOp st u op) u ops

def creditSum : List LedgerOp → ℚ
  | [] => 0
  | .credit a _ _ _ :: ops => a + creditSum ops
  | .debit _ _ _ _ :: ops => creditSum ops

def debitSum : List LedgerOp → ℚ
  | [] => 0
  | .credit _ _ _ _ :: ops => debitSum ops
  | .debit a _ _ _ :: ops => a + debitSum ops

/-- Signed amount of a transaction row: credits count positive, debits
negative. -/
def txSigned (t : BalanceTransaction) : ℚ :=
  if t.transaction_type = "credit" then t.amount else -t.amount

def signedTxSum (l : List BalanceTransaction) : ℚ :=
  (l.map txSigned).sum

/-- Demonstration sequence for the C5 witness: two credits and one debit. -/
def demoOps : List LedgerOp :=
  [.credit 5 "top-up" (some "pay_a") "payment",
   .debit 3 "usage fee" none "usage",
   .credit 2 "top-up" (some "pay_b") "payment"]


/-! ## Payment data model (`app/models/payment.py` / `payment_service.py`)

Row of the `payment_transactions` table. The `notes` free-text column is the
place where `_handle_payment_captured` / `_handle_payment_failed` record
processed webhook event ids. Fields not read by any claim (payment link url,
VPAs, timestamps) are omitted. -/

structure PaymentTransaction where
  tracking_id : String
  order_id : String
  payment_id : Option String
  amount : ℚ
  status : String
  error_message : Option String
  notes : Option String
deriving Repr, DecidableEq

/-- Python truthiness of an optional string (`None` and `""` are falsy). -/
def truthyOpt : Option String → Bool
  | some s => s ≠ ""
  | none => false

/-- Rendering of an optional value inside a Python f-string
(`None` renders as the text `None`). -/
def optStr : Option String → String
  | some s => s
  | none => "None"

/-- `hay` contains `pat` as a contiguous substring (the semantics of SQL
`LIKE '%pat%'` used by `check_duplicate_event`). -/
def strContainsSub (hay pat : String) : Bool :=
  (List.range (hay.data.length + 1)).any
    (fun i => pat.data.isPrefixOf (hay.data.drop i))

/-! ## External payment gateway (Razorpay), modelled as a read-only
environment: `order.fetch` and `payment.fetch` look up these records.
The gateway is not repository code; only its reachable read results matter. -/

structure GatewayOrder where
  id : String
  notes_payment_type : Option String
  notes_user_id : Option String
deriving Repr, DecidableEq

structure GatewayPayment where
  id : String
  order_id : String
  status : String
  amount_paise : ℚ
deriving Repr, DecidableEq

structure Gateway where
  orders : List GatewayOrder
  payments : List GatewayPayment
deriving Repr, DecidableEq

/-- Parsed webhook body, flattened: `event` is `webhook_data.get("event")`,
the `entity_*` fields are the fields read from
`payload[...]["entity"]` by the handlers (`.get` returns `none` when the key
is absent; `amount` defaults to `0`). -/
structure WebhookData where
  event : Option String
  entity_id : Option String
  entity_order_id : Option String
  entity_amount_paise : ℚ
  entity_amount_paid_paise : ℚ
  entity_error_description : Option String
deriving Repr, DecidableEq

/-- Combined mutable state: the ledger tables plus the
`payment_transactions` table. -/
structure SysState where
  ledger : LedgerState
  payments : List PaymentTransaction
deriving Repr, DecidableEq

/-! ## `PaymentService.verify_webhook_signature` (payment_service.py 288-323)

The HMAC-SHA256 hexdigest is library code (`hmac`/`hashlib`), taken as a
parameter `hmacSha256 secret body`. The repository-level logic: missing
(empty) signature returns `False`; otherwise the header is compared with the
computed digest (`hmac.compare_digest`, i.e. equality); any exception also
yields `False`, so the function never throws. -/

def verifyWebhookSignature (hmacSha256 : String → String → String)
    (secret body signature : String) : Bool :=
  if signature = "" then false
  else hmacSha256 secret body == signature

/-! ## `PaymentService.check_duplicate_event` (payment_service.py 325-353)

An empty event id is never a duplicate; otherwise the event is a duplicate iff
some `payment_transactions.notes` value contains the substring
`"event_id": "<id>"` (rows with NULL notes never match). -/

def checkDuplicateEvent (eventId : String) (payments : List PaymentTransaction) : Bool :=
  if eventId = "" then false
  else payments.any (fun r =>
    match r.notes with
    | some n => strContainsSub n ("\"event_id\": \"" ++ eventId ++ "\"")
    | none => false)

/-- Update the row found by `scalar_one_or_none` (the first row matching the
predicate); every other row is untouched. -/
def updateFirst (p : PaymentTransaction → Bool)
    (f : PaymentTransaction → PaymentTransaction) :
    List PaymentTransaction → List PaymentTransaction
  | [] => []
  | r :: rs => if p r then f r :: rs else r :: updateFirst p f rs

/-- Notes update shared by `_handle_payment_captured` and
`_handle_payment_failed`: append `, "event_id": "<id>"` to truthy notes,
otherwise initialise the notes to `{"event_id": "<id>"}`. -/
def appendEventNote (notes : Option String) (eventId : String) : Option String :=
  if truthyOpt notes then
    some (notes.getD "" ++ ", \"event_id\": \"" ++ eventId ++ "\"")
  else
    some ("\x7b\"event_id\": \"" ++ eventId ++ "\"\x7d")

/-! ## Webhook event handlers (payment_service.py 417-533) -/

/-- `_handle_payment_captured`: the record matching the entity's order id gets
status `"completed"`, the gateway payment id, and the event id recorded in its
notes. A missing record is only logged. -/
def handlePaymentCaptured (data : WebhookData) (eventId : String)
    (payments : List PaymentTransaction) : List PaymentTransaction :=
  match data.entity_order_id with
  | none => payments
  | some oid =>
    updateFirst (fun r => r.order_id == oid)
      (fun r => { r with status := "completed", payment_id := data.entity_id,
                         notes := appendEventNote r.notes eventId })
      payments

/-- `_handle_payment_failed`: unconditionally sets status `"failed"` on the
matching record, stores the error description and records the event id. -/
def handlePaymentFailed (data : WebhookData) (eventId : String)
    (payments : List PaymentTransaction) : List PaymentTransaction :=
  match data.entity_order_id with
  | none => payments
  | some oid =>
    updateFirst (fun r => r.order_id == oid)
      (fun r => { r with status := "failed", payment_id := data.entity_id,
                         error_message :=
                           some (data.entity_error_description.getD "Unknown error"),
                         notes := appendEventNote r.notes eventId })
      payments

/-- `_handle_payment_authorized`: unconditionally sets status `"authorized"`
and the payment id on the matching record; no precondition on the current
status and no event-id bookkeeping. -/
def handlePaymentAuthorized (data : WebhookData)
    (payments : List PaymentTransaction) : List PaymentTransaction :=
  match data.entity_order_id with
  | none => payments
  | some oid =>
    updateFirst (fun r => r.order_id == oid)
      (fun r => { r with status := "authorized", payment_id := data.entity_id })
      payments

/-- `_handle_order_paid`: the order entity's own `id` is the order id; sets
status `"paid"`. -/
def handleOrderPaid (data : WebhookData)
    (payments : List PaymentTransaction) : List PaymentTransaction :=
  match data.entity_id with
  | none => payments
  | some oid =>
    updateFirst (fun r => r.order_id == oid)
      (fun r => { r with status := "paid" })
      payments

/-- `PaymentService.process_webhook` (payment_service.py 355-415): dispatch on
the event name; refund events only log; unknown events and a missing event
name change nothing. Only the `payment_transactions` table is touched. -/
def processWebhook (data : WebhookData) (eventId : String)
    (payments : List PaymentTransaction) : List PaymentTransaction :=
  match data.event with
  | some "payment.captured" => handlePaymentCaptured data eventId payments
  | some "payment.failed" => handlePaymentFailed data eventId payments
  | some "payment.authorized" => handlePaymentAuthorized data payments
  | some "order.paid" => handleOrderPaid data payments
  | some _ => payments
  | none => payments

/-! ## Wallet API layer (`app/api/wallet.py`) -/

/-- HTTP-level result of an endpoint: either a JSON value or a raised
`HTTPException` with a status code and detail. -/
inductive ApiResult (α : Type) where
  | ok (val : α)
  | httpError (status : Nat) (detail : String)
deriving Repr, DecidableEq

/-- `razorpay_client.order.fetch`: `none` models a raised gateway error. -/
def gwFetchOrder (gw : Gateway) (orderId : String) : Option GatewayOrder :=
  gw.orders.find? (fun o => o.id == orderId)

/-- `razorpay_client.payment.fetch`: `none` models a raised gateway error. -/
def gwFetchPayment (gw : Gateway) (paymentId : String) : Option GatewayPayment :=
  gw.payments.find? (fun p => p.id == paymentId)

/-- `_process_wallet_webhook` (wallet.py 220-276): for a `payment.captured`
event, fetch the order from the gateway; if its notes tag it as a
`balance_topup` with a truthy user id and the amount is positive, credit the
ledger with `reference_id` = the gateway payment id. Any gateway failure is
caught and only logged. Afterwards the event is handed to
`process_webhook`. -/
def processWalletWebhook (gw : Gateway) (data : WebhookData) (eventId : String)
    (st : SysState) : SysState :=
  let st1 :=
    if data.event = some "payment.captured" then
      let amount := data.entity_amount_paise / 100
      match data.entity_order_id with
      | none => st
      | some oid =>
        match gwFetchOrder gw oid with
        | none => st
        | some od =>
          if od.notes_payment_type = some "balance_topup" ∧
              truthyOpt od.notes_user_id ∧ 0 < amount then
            { st with ledger :=
                (creditBalance st.ledger (od.notes_user_id.getD "") amount
                  ("Wallet top-up via payment " ++ optStr data.entity_id)
                  data.entity_id "payment").2 }
          else st
    else st
  { st1 with payments := processWebhook data eventId st1.payments }

/-- `payment_webhook` endpoint (wallet.py 160-217): reject HTTP 400 on a bad
signature before anything else; answer `duplicate_event_skipped` without any
mutation when the event id is already recorded; otherwise answer
`webhook_accepted` and run the background processing (modelled as completed
before the next request). -/
def paymentWebhook (hmacSha256 : String → String → String) (secret : String)
    (gw : Gateway) (st : SysState) (rawBody signature eventId : String)
    (data : WebhookData) : ApiResult String × SysState :=
  if verifyWebhookSignature hmacSha256 secret rawBody signature = false then
    (.httpError 400 "Invalid webhook signature", st)
  else if checkDuplicateEvent eventId st.payments then
    (.ok "duplicate_event_skipped", st)
  else
    (.ok "webhook_accepted", processWalletWebhook gw data eventId st)

/-- Result assembled by `PaymentService.verify_payment_status`
(payment_service.py 607-668); `none` models the `success: False` branch
reached when a gateway fetch raises. -/
structure VerifyInfo where
  status : String
  amount : ℚ
  is_captured : Bool
  notes_payment_type : Option String
  notes_user_id : Option String
deriving Repr, DecidableEq

def verifyPaymentStatus (gw : Gateway) (paymentId orderId : String) :
    Option VerifyInfo :=
  match gwFetchPayment gw paymentId, gwFetchOrder gw orderId with
  | some p, some o =>
    some { status := p.status, amount := p.amount_paise / 100,
           is_captured := p.status == "captured",
           notes_payment_type := o.notes_payment_type,
           notes_user_id := o.notes_user_id }
  | _, _ => none

/-- Body of the JSON response of `verify_and_credit_payment`; only the fields
the claims read. -/
structure VerifyResponse where
  success : Bool
  balance_credited : Bool
  amount_credited : Option ℚ
deriving Repr, DecidableEq

/-- `verify_and_credit_payment` endpoint (wallet.py 327-435): requires truthy
`payment_id` and `order_id`; fetches the authoritative status from the
gateway; if the payment is captured and the order notes tag it as a
`balance_topup` whose embedded user id equals the path user id and the amount
is positive, credits the ledger with `reference_id` = the payment id (no check
against existing `BalanceTransaction` rows). -/
def verifyAndCreditPayment (gw : Gateway) (userId : String)
    (paymentId orderId : Option String) (st : SysState) :
    ApiResult VerifyResponse × SysState :=
  if ¬ (truthyOpt paymentId ∧ truthyOpt orderId) then
    (.httpError 400 "Payment ID and Order ID are required", st)
  else
    let pid := paymentId.getD ""
    let oid := orderId.getD ""
    match verifyPaymentStatus gw pid oid with
    | none => (.httpError 400 "Payment verification failed", st)
    | some vr =>
      if vr.is_captured = false then
        (.ok { success := false, balance_credited := false, amount_credited := none }, st)
      else if vr.notes_payment_type = some "balance_topup" ∧
          vr.notes_user_id = some userId ∧ 0 < vr.amount then
        let credited := creditBalance st.ledger userId vr.amount
          ("Wallet top-up via verified payment " ++ pid) (some pid) "payment"
        (.ok { success := true, balance_credited := true,
               amount_credited := some vr.amount },
         { st with ledger := credited.2 })
      else
        (.ok { success := false, balance_credited := false, amount_credited := none }, st)

/-! ## `AddBalanceRequest.validate_amount` (models/balance.py 60-71) and the
`add_money` endpoint (wallet.py 113-157)

Pydantic runs the validator while parsing the request body, before the
handler; a `ValueError` surfaces as a validation error and the handler (and
hence the gateway call in `create_razorpay_order`) never runs. -/

def validateAmount (a : ℚ) : Except String ℚ :=
  if a ≤ 0 then .error "Amount must be greater than 0"
  else if a > 200000 then .error "Amount exceeds limit of Rs. 2,00,000"
  else .ok a

/-- The `add_money` request pipeline; the boolean records whether a gateway
order creation was attempted (`add_money` performs no ledger-store access at
all). -/
def addMoneyPipeline (a : ℚ) : ApiResult String × Bool :=
  match validateAmount a with
  | .error e => (.httpError 422 e, false)
  | .ok _ => (.ok "order_created", true)

/-! ## Chat cache (`app/core/cache.py`)

Byte strings are `List Nat`; zlib and the UTF-8 codec are library code, taken
as parameters (`zlibCompress`/`zlibDecompress`, `encode`/`decode`), with
`none` modelling a raised `zlib.error` / `UnicodeDecodeError`. -/

/-- `CacheService._compress_data` (cache.py 51-55): compress only when the
string is longer than the 1024-character threshold, else store the raw UTF-8
bytes. -/
def compressData (zlibCompress : List Nat → List Nat)
    (encode : String → List Nat) (s : String) : List Nat :=
  if 1024 < s.length then zlibCompress (encode s) else encode s

/-- `CacheService._decompress_data` (cache.py 57-64): try to decompress and
decode; on `zlib.error` or `UnicodeDecodeError` fall back to decoding the raw
bytes (whose own failure propagates, modelled by `none`). -/
def decompressData (zlibDecompress : List Nat → Option (List Nat))
    (decode : List Nat → Option String) (d : List Nat) : Option String :=
  match zlibDecompress d with
  | some b =>
    match decode b with
    | some s => some s
    | none => decode d
  | none => decode d

/-! ## Chat cache key derivation (`cache.py` 26-49) -/

/-- Python `str.strip()` whitespace for the ASCII range. -/
def isPyWs (c : Char) : Bool :=
  c = ' ' ∨ c = '\t' ∨ c = '\n' ∨ c = '\r' ∨ c.toNat = 11 ∨ c.toNat = 12

def pyStrip (s : String) : String :=
  String.mk (((s.data.dropWhile isPyWs).reverse.dropWhile isPyWs).reverse)

def pyLower (s : String) : String :=
  String.mk (s.data.map Char.toLower)

def hexDigit (n : Nat) : Char :=
  if n < 10 then Char.ofNat (48 + n) else Char.ofNat (87 + n)

def hex4 (n : Nat) : String :=
  String.mk [hexDigit (n / 4096 % 16), hexDigit (n / 256 % 16),
    hexDigit (n / 16 % 16), hexDigit (n % 16)]

/-- `json.dumps` escaping of one character (default `ensure_ascii=True`). -/
def jsonEscapeChar (c : Char) : String :=
  if c = '"' then "\\\""
  else if c = '\\' then "\\\\"
  else if c = '\n' then "\\n"
  else if c = '\r' then "\\r"
  else if c = '\t' then "\\t"
  else if c.toNat = 8 then "\\b"
  else if c.toNat = 12 then "\\f"
  else if c.toNat < 32 then "\\u" ++ hex4 c.toNat
  else if c.toNat < 128 then String.mk [c]
  else if c.toNat < 65536 then "\\u" ++ hex4 c.toNat
  else
    let v := c.toNat - 65536
    "\\u" ++ hex4 (55296 + v / 1024) ++ "\\u" ++ hex4 (56320 + v % 1024)

/-- `json.dumps({"question": q}, sort_keys=True, separators=(",", ":"))`. -/
def jsonDumpsQuestion (q : String) : String :=
  "\x7b\"question\":\"" ++ String.join (q.data.map jsonEscapeChar) ++ "\"\x7d"

/-- `CacheService._generate_key` (cache.py 26-30): SHA-256 of the canonical
JSON of the data dict, truncated to 16 hex characters; the digest itself is
library code, a parameter. -/
def generateKey (sha256hex : String → String) (pre dataStr : String) : String :=
  "chat_cache:" ++ pre ++ ":" ++ String.mk ((sha256hex dataStr).data.take 16)

/-- A chat message dict; `.get` on the Python dict returns `none` for an
absent key. -/
structure ChatMessage where
  role : Option String
  content : Option String
deriving Repr, DecidableEq

/-- Python `str(current_user_msg)` rendering used for messages whose last
entry is not a user turn (never hit by the claims). -/
def strOfMsg (m : ChatMessage) : String :=
  "\x7b" ++ String.intercalate ", "
    ((match m.role with
      | some r => ["'role': '" ++ r ++ "'"]
      | none => []) ++
     (match m.content with
      | some c => ["'content': '" ++ c ++ "'"]
      | none => [])) ++ "\x7d"

/-- `CacheService._get_conversation_key` (cache.py 32-49): the key depends
only on the last message; for a user turn, on its content stripped and
lowercased. -/
def getConversationKey (sha256hex : String → String)
    (messages : List ChatMessage) : String :=
  match messages.getLast? with
  | none => generateKey sha256hex "simple" (jsonDumpsQuestion "")
  | some m =>
    if m.role = some "user" then
      generateKey sha256hex "simple"
        (jsonDumpsQuestion (pyLower (pyStrip (m.content.getD ""))))
    else
      generateKey sha256hex "simple" (jsonDumpsQuestion (strOfMsg m))

/-! ## Concrete reconciliation scenario

A wallet top-up order created by `POST /wallet/user_1/add` (which creates a
Razorpay order with `balance_topup` notes but — unlike the UPI flow — inserts
no `PaymentTransaction` row), paid and captured at the gateway for 50000 paise
(₹500). The digest stub makes the demo deliveries carry a valid signature
(`signature = hmacDemo secret body` whenever `signature = body`). -/

def hmacDemo : String → String → String := fun _ body => body

def gwTopup : Gateway :=
  { orders := [{ id := "order_1", notes_payment_type := some "balance_topup",
                 notes_user_id := some "user_1" }],
    payments := [{ id := "pay_1", order_id := "order_1", status := "captured",
                   amount_paise := 50000 }] }

/-- The `payment.captured` webhook body for that payment. -/
def wdCaptured : WebhookData :=
  { event := some "payment.captured", entity_id := some "pay_1",
    entity_order_id := some "order_1", entity_amount_paise := 50000,
    entity_amount_paid_paise := 0, entity_error_description := none }

/-- First delivery of the `payment.captured` webhook (event id `evt_cap_1`) on
a fresh store. -/
def firstDelivery : ApiResult String × SysState :=
  paymentWebhook hmacDemo "secret" gwTopup ⟨emptyLedger, []⟩
    "rawbody" "rawbody" "evt_cap_1" wdCaptured

/-- Redelivery of the identical event id with the identical payload. -/
def secondDelivery : ApiResult String × SysState :=
  paymentWebhook hmacDemo "secret" gwTopup firstDelivery.2
    "rawbody" "rawbody" "evt_cap_1" wdCaptured

/-- The verify-payment call for the same payment id, after the webhook. -/
def verifyAfterWebhook : ApiResult VerifyResponse × SysState :=
  verifyAndCreditPayment gwTopup "user_1" (some "pay_1") (some "order_1")
    firstDelivery.2

/-- Ledger contents after the first webhook delivery: one credit of
`50000 / 100` rupees referencing `pay_1`. -/
def ledgerAfterFirst : LedgerState :=
  (creditBalance emptyLedger "user_1" (50000 / 100)
    ("Wallet top-up via payment " ++ "pay_1") (some "pay_1") "payment").2

/-- Ledger contents after the verify-payment call that follows the webhook:
a second credit referencing the same `pay_1`. -/
def ledgerAfterVerify : LedgerState :=
  (creditBalance ledgerAfterFirst "user_1" (50000 / 100)
    ("Wallet top-up via verified payment " ++ "pay_1") (some "pay_1") "payment").2

/-- Ledger contents after the webhook redelivery: a second credit referencing
the same `pay_1`, applied by the webhook path itself. -/
def ledgerAfterSecond : LedgerState :=
  (creditBalance ledgerAfterFirst "user_1" (50000 / 100)
    ("Wallet top-up via payment " ++ "pay_1") (some "pay_1") "payment").2

/-- A payment record that has already reached the terminal `"completed"`
status (as written by `_handle_payment_captured`). -/
def recCompleted : PaymentTransaction :=
  { tracking_id := "track_1", order_id := "order_9", payment_id := some "pay_9",
    amount := 10, status := "completed", error_message := none,
    notes := some "\x7b\"event_id\": \"evt_cap_9\"\x7d" }

/-- A late `payment.authorized` webhook for the already-completed payment. -/
def wdLateAuthorized : WebhookData :=
  { event := some "payment.authorized", entity_id := some "pay_9",
    entity_order_id := some "order_9", entity_amount_paise := 1000,
    entity_amount_paid_paise := 0, entity_error_description := none }

/-- A late `payment.failed` webhook for the already-completed payment. -/
def wdLateFailed : WebhookData :=
  { event := some "payment.failed", entity_id := some "pay_9",
    entity_order_id := some "order_9", entity_amount_paise := 1000,
    entity_amount_paid_paise := 0, entity_error_description := some "card declined" }

/-! ## Helper lemmas -/

/-! ### Ledger helper lemmas -/

theorem find?_map_balanceUpdate (l : List UserBalance) (user : String)
    (g : UserBalance → UserBalance) (hg : ∀ b, (g b).user_id = b.user_id) :
    (l.map (fun b => if b.user_id == user then g b else b)).find?
        (fun b => b.user_id == user) =
      (l.find? (fun b => b.user_id == user)).map g := by
  induction l with
  | nil => rfl
  | cons b l ih =>
    simp only [List.map_cons, List.find?_cons]
    by_cases h : (b.user_id == user) = true
    · have hgb : ((g b).user_id == user) = true := by rw [hg b]; exact h
      simp [h, hgb]
    · rw [Bool.not_eq_true] at h
      rw [if_neg (by simp [h]), h]
      simpa using ih

theorem find?_eq_none_of_any_eq_false (l : List UserBalance) (user : String)
    (h : l.any (fun b => b.user_id == user) = false) :
    l.find? (fun b => b.user_id == user) = none := by
  rw [List.find?_eq_none]
  intro x hx
  simp only [List.any_eq_false] at h
  simpa using h x hx

/-- Crediting changes the stored balance of the credited user by exactly the
credited amount, in both the insert and the update branch of the upsert. -/
theorem storedBalance_credit (st : LedgerState) (user : String) (a : ℚ)
    (d : String) (r : Option String) (t : String) :
    storedBalance (creditBalance st user a d r t).2 user = storedBalance st user + a := by
  unfold creditBalance storedBalance
  by_cases h : st.balances.any (fun b => b.user_id == user)
  · simp only [h, if_true]
    rw [find?_map_balanceUpdate st.balances user
      (fun b => { b with balance := b.balance + a }) (fun _ => rfl)]
    rcases hf : st.balances.find? (fun b => b.user_id == user) with _ | b
    · rw [List.any_eq_true] at h
      obtain ⟨x, hx, hxu⟩ := h
      exact absurd hxu (by simpa using List.find?_eq_none.mp hf x hx)
    · rw [hf]
      rfl
  · simp only [h]
    rw [if_neg (by simp [h])]
    rw [List.find?_append, find?_eq_none_of_any_eq_false _ _ (by simpa using h)]
    simp

/-- Crediting appends exactly one `"credit"` transaction row carrying the
credited amount and reference. -/
theorem transactions_credit (st : LedgerState) (user : String) (a : ℚ)
    (d : String) (r : Option String) (t : String) :
    (creditBalance st user a d r t).2.transactions =
      st.transactions ++
        [{ id := "tx_" ++ toString st.nextTx, user_id := user,
           transaction_type := "credit", amount := a, description := d,
           reference_id := r, reference_type := t }] := by
  unfold creditBalance
  by_cases h : st.balances.any (fun b => b.user_id == user) <;> simp [h]

/-- An insufficient-funds debit (no balance row, or `balance < amount`) returns
`False` and leaves the ledger untouched. -/
theorem debitBalance_insufficient (st : LedgerState) (user : String) (a : ℚ)
    (d : String) (r : Option String) (t : String)
    (h : storedBalance st user < a) :
    debitBalance st user a d r t = (.ret false, st) := by
  unfold debitBalance
  unfold storedBalance at h
  rcases hfind : st.balances.find? (fun b => b.user_id == user) with _ | b
  · simp only [hfind]
  · rw [hfind] at h
    simp only [hfind, if_pos (show b.balance < a from h)]

/-- A sufficiently funded debit decreases the stored balance by the debited
amount and appends exactly one `"debit"` transaction row. -/
theorem debitBalance_ok (st : LedgerState) (user : String) (a : ℚ)
    (d : String) (r : Option String) (t : String) (b : UserBalance)
    (hf : st.balances.find? (fun x => x.user_id == user) = some b)
    (hge : ¬ b.balance < a) :
    (debitBalance st user a d r t).1 = .ret true ∧
    storedBalance (debitBalance st user a d r t).2 user = storedBalance st user - a ∧
    (debitBalance st user a d r t).2.transactions =
      st.transactions ++
        [{ id := "tx_" ++ toString st.nextTx, user_id := user,
           transaction_type := "debit", amount := a, description := d,
           reference_id := r, reference_type := t }] := by
  unfold debitBalance
  simp only [hf, if_neg hge]
  refine ⟨trivial, ?_, trivial⟩
  unfold storedBalance
  rw [find?_map_balanceUpdate st.balances user
    (fun x => { x with balance := x.balance - a }) (fun _ => rfl), hf]
  rfl

theorem signedTxSum_append (l₁ l₂ : List BalanceTransaction) :
    signedTxSum (l₁ ++ l₂) = signedTxSum l₁ + signedTxSum l₂ := by
  unfold signedTxSum
  rw [List.map_append, List.sum_append]

theorem opOk_debit_elim (st : LedgerState) (u : String) (a : ℚ)
    (d : String) (r : Option String) (t : String)
    (h : opOk st u (.debit a d r t) = true) :
    ∃ b, st.balances.find? (fun x => x.user_id == u) = some b ∧ ¬ b.balance < a := by
  unfold opOk debitBalance at h
  rcases hf : st.balances.find? (fun x => x.user_id == u) with _ | b
  · simp [hf] at h
  · by_cases hlt : b.balance < a
    · simp [hf, hlt] at h
    · exact ⟨b, hf, hlt⟩

/-- Replaying a sequence of successful operations changes the stored balance
and the signed transaction-log sum by the same delta: credits minus debits. -/
theorem applyOps_invariant (ops : List LedgerOp) (u : String) :
    ∀ st : LedgerState, allSucceed st u ops = true →
      storedBalance (applyOps st u ops) u =
        storedBalance st u + (creditSum ops - debitSum ops) ∧
      signedTxSum (applyOps st u ops).transactions =
        signedTxSum st.transactions + (creditSum ops - debitSum ops) := by
  induction ops with
  | nil => intro st _; simp [applyOps, creditSum, debitSum]
  | cons op ops ih =>
    intro st hok
    rw [allSucceed, Bool.and_eq_true] at hok
    obtain ⟨hok1, hok2⟩ := hok
    have ihs := ih (applyOp st u op) hok2
    cases op with
    | credit a d r t =>
      have hb := storedBalance_credit st u a d r t
      have ht := transactions_credit st u a d r t
      rw [applyOps]
      constructor
      · rw [ihs.1]
        show _ = storedBalance st u + (creditSum (.credit a d r t :: ops) - _)
        rw [applyOp, hb, creditSum, debitSum]
        ring
      · rw [ihs.2]
        show _ = signedTxSum st.transactions + (creditSum (.credit a d r t :: ops) - _)
        rw [applyOp, ht, signedTxSum_append, creditSum, debitSum]
        unfold signedTxSum txSigned
        simp
        ring
    | debit a d r t =>
      obtain ⟨b, hf, hge⟩ := opOk_debit_elim st u a d r t hok1
      have hd := debitBalance_ok st u a d r t b hf hge
      rw [applyOps]
      constructor
      · rw [ihs.1]
        show _ = storedBalance st u + (_ - debitSum (.debit a d r t :: ops))
        rw [applyOp, hd.2.1, creditSum, debitSum]
        ring
      · rw [ihs.2]
        show _ = signedTxSum st.transactions + (_ - debitSum (.debit a d r t :: ops))
        rw [applyOp, hd.2.2, signedTxSum_append, creditSum, debitSum]
        unfold signedTxSum txSigned
        simp
        ring

/-! # Claim theorems -/

/-- C7: the ledger credit operation applies any amount unconditionally — for
every amount (zero and negative included) it adds the amount to the stored
balance (inserting a row carrying the amount when absent) and appends one
`"credit"` `BalanceTransaction` row carrying that amount; no `amount > 0`
check exists, and a negative credit strictly decreases the balance. -/
theorem C7_credit_unconditional :
    (∀ (st : LedgerState) (u : String) (a : ℚ) (d : String)
        (r : Option String) (t : String),
      storedBalance (creditBalance st u a d r t).2 u = storedBalance st u + a ∧
      (creditBalance st u a d r t).2.transactions =
        st.transactions ++
          [{ id := "tx_" ++ toString st.nextTx, user_id := u,
             transaction_type := "credit", amount := a, description := d,
             reference_id := r, reference_type := t }]) ∧
    (∃ (st : LedgerState) (u : String) (a : ℚ),
      a < 0 ∧
      storedBalance (creditBalance st u a "adjustment" none "payment").2 u <
        storedBalance st u) := by
  constructor
  · intro st u a d r t
    exact ⟨storedBalance_credit st u a d r t, transactions_credit st u a d r t⟩
  · refine ⟨emptyLedger, "u", -1, by norm_num, ?_⟩
    rw [storedBalance_credit]
    have h0 : storedBalance emptyLedger "u" = 0 := rfl
    rw [h0]
    norm_num

/-- C8: `POST /wallet/{userId}/add` accepts an amount iff
`0 < amount ≤ 200000`; a rejected amount never reaches the gateway order
creation (and `add_money` performs no ledger-store access at all). -/
theorem C8_add_amount_validation (a : ℚ) :
    ((∃ v, validateAmount a = .ok v) ↔ (0 < a ∧ a ≤ 200000)) ∧
    ((addMoneyPipeline a).2 = true ↔ (0 < a ∧ a ≤ 200000)) := by
  have hmain : (∃ v, validateAmount a = .ok v) ↔ (0 < a ∧ a ≤ 200000) := by
    unfold validateAmount
    by_cases h1 : a ≤ 0
    · simp only [if_pos h1]
      constructor
      · rintro ⟨v, hv⟩
        cases hv
      · rintro ⟨hp, -⟩
        exact absurd hp (not_lt.mpr h1)
    · by_cases h2 : a > 200000
      · simp only [if_neg h1, if_pos h2]
        constructor
        · rintro ⟨v, hv⟩
          cases hv
        · rintro ⟨-, hle⟩
          exact absurd h2 (not_lt.mpr hle)
      · simp only [if_neg h1, if_neg h2]
        exact ⟨fun _ => ⟨not_le.mp h1, not_lt.mp h2⟩, fun _ => ⟨a, rfl⟩⟩
  have hbool : (addMoneyPipeline a).2 = true ↔ (∃ v, validateAmount a = .ok v) := by
    unfold addMoneyPipeline
    cases hv : validateAmount a with
    | error e =>
      simp only [hv]
      constructor
      · intro h
        exact absurd h (by decide)
      · rintro ⟨v, h⟩
        cases h
    | ok v =>
      simp only [hv]
      constructor
      · intro _
        exact ⟨v, rfl⟩
      · intro _
        trivial
  refine ⟨hmain, ?_⟩
  rw [hbool]
  exact hmain

/-- C4 (amended): a debit of a positive amount exceeding the user's current
balance (a missing balance row counting as zero) fails by returning `False` —
no exception is raised — and leaves the ledger state (balance rows and
transaction log) exactly unchanged. -/
theorem C4_insufficient_debit_state_unchanged (st : LedgerState) (u : String)
    (a : ℚ) (d : String) (r : Option String) (t : String)
    (_hpos : 0 < a) (hlt : storedBalance st u < a) :
    debitBalance st u a d r t = (.ret false, st) :=
  debitBalance_insufficient st u a d r t hlt

/-- Witness for C4: a concrete insufficient debit (fresh user, amount 5). -/
theorem C4_insufficient_debit_witness :
    0 < (5 : ℚ) ∧ storedBalance emptyLedger "alice" < 5 ∧
    debitBalance emptyLedger "alice" 5 "usage fee" none "usage" =
      (.ret false, emptyLedger) := by
  refine ⟨by norm_num, by decide, ?_⟩
  exact C4_insufficient_debit_state_unchanged emptyLedger "alice" 5 "usage fee"
    none "usage" (by norm_num) (by decide)

/-- C4 counterexample to the claim as stated: on a concrete insufficient-funds
input `debit_balance` returns `False` normally; it does not raise an
`InsufficientFundsError` (no such exception exists in the repository). -/
theorem C4_no_exception_counterexample :
    (debitBalance emptyLedger "alice" 5 "usage fee" none "usage").1 =
      PyOutcome.ret false ∧
    (debitBalance emptyLedger "alice" 5 "usage fee" none "usage").1 ≠
      PyOutcome.raised "InsufficientFundsError" := by
  constructor
  · rfl
  · decide

/-- C6: signature verification returns `false` (it is a total function, so it
never throws) on a missing (empty) signature header or an HMAC mismatch over
the raw body, and in that case the webhook endpoint answers HTTP 400 with the
state — ledger and payment records — unchanged, whatever the payload. -/
theorem C6_invalid_signature_rejected (hmacSha256 : String → String → String)
    (secret : String) (gw : Gateway) (st : SysState)
    (body signature eventId : String) (data : WebhookData)
    (h : signature = "" ∨ hmacSha256 secret body ≠ signature) :
    verifyWebhookSignature hmacSha256 secret body signature = false ∧
    paymentWebhook hmacSha256 secret gw st body signature eventId data =
      (.httpError 400 "Invalid webhook signature", st) := by
  have hv : verifyWebhookSignature hmacSha256 secret body signature = false := by
    unfold verifyWebhookSignature
    by_cases hs : signature = ""
    · rw [if_pos hs]
    · rw [if_neg hs]
      rcases h with h | h
      · exact absurd h hs
      · exact beq_eq_false_iff_ne.mpr h
  refine ⟨hv, ?_⟩
  unfold paymentWebhook
  rw [hv, if_pos rfl]

/-- Witness for C6: a concrete delivery with an empty signature header. -/
theorem C6_invalid_signature_witness :
    verifyWebhookSignature (fun _ b => b) "secret" "payload" "" = false ∧
    paymentWebhook (fun _ b => b) "secret" ⟨[], []⟩ ⟨emptyLedger, []⟩
        "payload" "" "evt_0" ⟨none, none, none, 0, 0, none⟩ =
      (.httpError 400 "Invalid webhook signature", ⟨emptyLedger, []⟩) :=
  C6_invalid_signature_rejected (fun _ b => b) "secret" ⟨[], []⟩
    ⟨emptyLedger, []⟩ "payload" "" "evt_0" ⟨none, none, none, 0, 0, none⟩
    (Or.inl rfl)

/-- C5: replaying any finite sequence of successful positive-amount credit and
debit operations against a fresh user yields a stored balance equal to the sum
of the credit amounts minus the sum of the debit amounts, which also equals
the signed sum (credits positive, debits negative) of the persisted
transaction rows read back in any order. -/
theorem C5_balance_is_signed_sum (ops : List LedgerOp) (u : String)
    (_hpos : ∀ op ∈ ops, 0 < opAmount op)
    (hok : allSucceed emptyLedger u ops = true) :
    storedBalance (applyOps emptyLedger u ops) u = creditSum ops - debitSum ops ∧
    ∀ l : List BalanceTransaction,
      (applyOps emptyLedger u ops).transactions.Perm l →
      signedTxSum l = storedBalance (applyOps emptyLedger u ops) u := by
  have h := applyOps_invariant ops u emptyLedger hok
  have h0 : storedBalance emptyLedger u = 0 := rfl
  have ht0 : signedTxSum emptyLedger.transactions = 0 := rfl
  have hbal : storedBalance (applyOps emptyLedger u ops) u =
      creditSum ops - debitSum ops := by
    rw [h.1, h0]
    ring
  refine ⟨hbal, ?_⟩
  intro l hperm
  have hsum : signedTxSum ((applyOps emptyLedger u ops).transactions) =
      signedTxSum l := by
    unfold signedTxSum
    exact (hperm.map txSigned).sum_eq
  rw [← hsum, h.2, ht0, hbal]
  ring

/-- Witness for C5: on the concrete sequence, the balance is `5 - 3 + 2 = 4`
and the reversed transaction log sums to the same value. -/
theorem C5_balance_witness :
    storedBalance (applyOps emptyLedger "u" demoOps) "u" = 4 ∧
    signedTxSum ((applyOps emptyLedger "u" demoOps).transactions.reverse) = 4 := by
  have h := C5_balance_is_signed_sum demoOps "u" (by decide) (by decide)
  have hbal : storedBalance (applyOps emptyLedger "u" demoOps) "u" = 4 := by
    rw [h.1]
    norm_num [demoOps, creditSum, debitSum]
  refine ⟨hbal, ?_⟩
  have hperm := (List.reverse_perm
    ((applyOps emptyLedger "u" demoOps).transactions)).symm
  rw [h.2 _ hperm, hbal]

/-- C9: reading back a stored cache entry recovers the original string:
decompression applied to the stored form (zlib-compressed beyond the 1KB
threshold, raw UTF-8 bytes otherwise) is the identity, given that the zlib
codec round-trips, UTF-8 decode inverts encode, and a raw (uncompressed)
encoding is not itself a valid zlib stream. -/
theorem C9_cache_roundtrip (zc : List Nat → List Nat)
    (zd : List Nat → Option (List Nat)) (enc : String → List Nat)
    (dec : List Nat → Option String) (s : String)
    (hdec : dec (enc s) = some s)
    (hcomp : 1024 < s.length → zd (zc (enc s)) = some (enc s))
    (hraw : s.length ≤ 1024 → zd (enc s) = none) :
    decompressData zd dec (compressData zc enc s) = some s := by
  unfold compressData decompressData
  by_cases h : 1024 < s.length
  · rw [if_pos h]
    simp only [hcomp h, hdec]
  · rw [if_neg h]
    simp only [hraw (not_lt.mp h), hdec]

/-- Witness for C9: a concrete short string with a concrete codec. -/
theorem C9_cache_roundtrip_witness :
    decompressData (fun _ => none)
        (fun b => if b = [104, 105] then some "hi" else none)
        (compressData (fun b => b) (fun s => s.data.map Char.toNat) "hi") =
      some "hi" :=
  C9_cache_roundtrip (fun b => b) (fun _ => none)
    (fun s => s.data.map Char.toNat)
    (fun b => if b = [104, 105] then some "hi" else none) "hi"
    (by decide) (fun h => absurd h (by decide)) (fun _ => rfl)

/-- C10: the chat-cache key depends only on the last user message's content
after stripping and lowercasing — two message lists whose final user turns
normalize to the same content get the same key, whatever their histories —
and the derivation is a pure function, hence deterministic. -/
theorem C10_cache_key_last_user_message (sha256hex : String → String)
    (ms1 ms2 : List ChatMessage) (m1 m2 : ChatMessage)
    (h1 : ms1.getLast? = some m1) (h2 : ms2.getLast? = some m2)
    (hr1 : m1.role = some "user") (hr2 : m2.role = some "user")
    (hc : pyLower (pyStrip (m1.content.getD "")) =
      pyLower (pyStrip (m2.content.getD ""))) :
    getConversationKey sha256hex ms1 = getConversationKey sha256hex ms2 ∧
    ∀ ms : List ChatMessage,
      getConversationKey sha256hex ms = getConversationKey sha256hex ms := by
  constructor
  · unfold getConversationKey
    simp only [h1, h2]
    rw [if_pos hr1, if_pos hr2, hc]
  · intro ms
    rfl

/-- Witness for C10: `"  Hello "` after a fresh session and `"hello"` after an
assistant turn produce the same key. -/
theorem C10_cache_key_witness :
    getConversationKey (fun s => s)
        [{ role := some "user", content := some "  Hello " }] =
      getConversationKey (fun s => s)
        [{ role := some "assistant", content := some "earlier turn" },
         { role := some "user", content := some "hello" }] :=
  (C10_cache_key_last_user_message (fun s => s)
    [{ role := some "user", content := some "  Hello " }]
    [{ role := some "assistant", content := some "earlier turn" },
     { role := some "user", content := some "hello" }]
    { role := some "user", content := some "  Hello " }
    { role := some "user", content := some "hello" }
    rfl rfl rfl rfl (by decide)).1

/-- C3 is violated by the code: both late handlers update the record found by
order id unconditionally, so a record whose status is the terminal
`"completed"` is downgraded to `"authorized"` by a late `payment.authorized`
event and overwritten to `"failed"` by a late `payment.failed` event. -/
theorem C3_completed_status_downgraded :
    (processWebhook wdLateAuthorized "evt_late_auth" [recCompleted]).map
        (fun r => r.status) = ["authorized"] ∧
    (processWebhook wdLateFailed "evt_late_fail" [recCompleted]).map
        (fun r => r.status) = ["failed"] := by
  constructor
  · rfl
  · rfl

/-- C1 is violated by the code: neither credit path checks for an existing
`BalanceTransaction` with the payment's `reference_id`, so delivering the
`payment.captured` webhook for `pay_1` and then calling verify-payment for the
same payment id produces two ledger credits and two `BalanceTransaction` rows
with `reference_id = "pay_1"` (and a doubled balance of ₹1000). -/
theorem C1_webhook_then_verify_double_credit :
    firstDelivery.1 = .ok "webhook_accepted" ∧
    verifyAfterWebhook.1 =
      .ok { success := true, balance_credited := true,
            amount_credited := some (50000 / 100) } ∧
    verifyAfterWebhook.2.ledger.transactions.countP
      (fun tx => tx.reference_id == some "pay_1") = 2 ∧
    storedBalance verifyAfterWebhook.2.ledger "user_1" = 1000 := by
  have hamt : (0 : ℚ) < 50000 / 100 := by norm_num
  have h1 : firstDelivery =
      (.ok "webhook_accepted", ⟨ledgerAfterFirst, []⟩) := by
    simp [firstDelivery, paymentWebhook, verifyWebhookSignature, hmacDemo,
      checkDuplicateEvent, processWalletWebhook, processWebhook,
      handlePaymentCaptured, updateFirst, gwFetchOrder, gwTopup, wdCaptured,
      truthyOpt, optStr, ledgerAfterFirst, hamt]
  have h2 : verifyAfterWebhook =
      (.ok { success := true, balance_credited := true,
             amount_credited := some (50000 / 100) },
       ⟨ledgerAfterVerify, []⟩) := by
    simp [verifyAfterWebhook, h1, verifyAndCreditPayment, verifyPaymentStatus,
      gwFetchPayment, gwFetchOrder, gwTopup, truthyOpt, ledgerAfterVerify, hamt]
  have htx : ledgerAfterVerify.transactions.countP
      (fun tx => tx.reference_id == some "pay_1") = 2 := by
    unfold ledgerAfterVerify ledgerAfterFirst
    rw [transactions_credit, transactions_credit]
    simp [List.countP_append, List.countP_cons, emptyLedger]
  have hbal : storedBalance ledgerAfterVerify "user_1" = 1000 := by
    unfold ledgerAfterVerify ledgerAfterFirst
    rw [storedBalance_credit, storedBalance_credit]
    have h0 : storedBalance emptyLedger "user_1" = 0 := rfl
    rw [h0]
    norm_num
  rw [h1, h2]
  exact ⟨rfl, rfl, htx, hbal⟩

/-- C2 is violated by the code for top-up orders: `add_money` inserts no
`PaymentTransaction` row, `_handle_payment_captured` therefore records the
event id nowhere, and `check_duplicate_event` finds nothing — so the second
delivery of the identical event id is processed again: it answers
`webhook_accepted` (not `duplicate_event_skipped`) and applies a second
ledger credit. -/
theorem C2_replayed_event_credits_twice :
    firstDelivery.1 = .ok "webhook_accepted" ∧
    firstDelivery.2.ledger.transactions.countP
      (fun tx => tx.transaction_type == "credit") = 1 ∧
    secondDelivery.1 = .ok "webhook_accepted" ∧
    secondDelivery.1 ≠ .ok "duplicate_event_skipped" ∧
    secondDelivery.2.ledger.transactions.countP
      (fun tx => tx.transaction_type == "credit") = 2 := by
  have hamt : (0 : ℚ) < 50000 / 100 := by norm_num
  have h1 : firstDelivery =
      (.ok "webhook_accepted", ⟨ledgerAfterFirst, []⟩) := by
    simp [firstDelivery, paymentWebhook, verifyWebhookSignature, hmacDemo,
      checkDuplicateEvent, processWalletWebhook, processWebhook,
      handlePaymentCaptured, updateFirst, gwFetchOrder, gwTopup, wdCaptured,
      truthyOpt, optStr, ledgerAfterFirst, hamt]
  have h2 : secondDelivery =
      (.ok "webhook_accepted", ⟨ledgerAfterSecond, []⟩) := by
    simp [secondDelivery, h1, paymentWebhook, verifyWebhookSignature, hmacDemo,
      checkDuplicateEvent, processWalletWebhook, processWebhook,
      handlePaymentCaptured, updateFirst, gwFetchOrder, gwTopup, wdCaptured,
      truthyOpt, optStr, ledgerAfterSecond, ledgerAfterFirst, hamt]
  have htx1 : ledgerAfterFirst.transactions.countP
      (fun tx => tx.transaction_type == "credit") = 1 := by
    unfold ledgerAfterFirst
    rw [transactions_credit]
    simp [List.countP_append, List.countP_cons, emptyLedger]
  have htx2 : ledgerAfterSecond.transactions.countP
      (fun tx => tx.transaction_type == "credit") = 2 := by
    unfold ledgerAfterSecond ledgerAfterFirst
    rw [transactions_credit, transactions_credit]
    simp [List.countP_append, List.countP_cons, emptyLedger]
  rw [h1, h2]
  exact ⟨rfl, htx1, rfl, by simp, htx2⟩

end ChatBackend
